import Mathlib

/-!
Verification development for the El Chal combo-pricing tool (src/chal.py).
The Python source is shallowly embedded below: the catalog is an association
list from product id to product record, money amounts are rationals, and the
nullable fields of the source (precio_base, precio_min, qty) become Option.
All definitions are executable.
-/

namespace ElChal

/-! ### Data model -/

/-- Product record as stored in the in-memory catalog dict built at
src/chal.py lines 273-282: category string, display name, nullable base
price and nullable minimum price. -/
structure Product where
  categoria : String
  producto : String
  precio_base : Option ℚ
  precio_min : Option ℚ
deriving DecidableEq

/-- The catalog dict (product id to product), embedded as an association
list in insertion order. -/
abbrev Catalog := List (String × Product)

/-- Dict lookup catalog.get(pid). -/
def catFind (cat : Catalog) (pid : String) : Option Product :=
  (cat.find? (fun e => e.1 == pid)).map (fun e => e.2)

/-- The per-category food-cost table cat_cost_pct (src/chal.py lines 249-252). -/
abbrev CostTable := List (String × ℚ)

/-- cat_cost_pct.get(cat, 0.33): exact category match, default fraction 0.33. -/
def tableGet (t : CostTable) (c : String) : ℚ :=
  match t.find? (fun e => e.1 == c) with
  | some e => e.2
  | none => 33 / 100

/-- costo_estimado_row (src/chal.py lines 83-84): unit price times the
category food-cost fraction. -/
def costo_estimado_row (price : ℚ) (cat : String) (t : CostTable) : ℚ :=
  price * tableGet t cat

/-- A line item of a combo: dict with an id and an optional qty;
it.get("qty", 1) defaults the quantity to 1. -/
structure LineItem where
  id : String
  qty : Option ℚ
deriving DecidableEq

/-- Effective quantity of a line item, float(it.get("qty", 1)). -/
def qtyOf (it : LineItem) : ℚ := it.qty.getD 1

/-! ### Combo evaluator (src/chal.py lines 295-311) -/

/-- Result record of eval_combo. -/
structure ComboMetrics where
  sum_base : ℚ
  sum_cost : ℚ
  commission_cost : ℚ
  total_cost_combo : ℚ
  margen_abs : ℚ
  margen_pct : ℚ
  desc_vs_base : ℚ
deriving DecidableEq

/-- One iteration of the eval_combo accumulation loop (src/chal.py lines
297-303): items whose product is absent or has a null base price leave the
accumulator unchanged; otherwise base*qty and estimated-cost*qty are added. -/
def evalStep (cat : Catalog) (t : CostTable) (p : ℚ × ℚ) (it : LineItem) : ℚ × ℚ :=
  match catFind cat it.id with
  | none => p
  | some info =>
    match info.precio_base with
    | none => p
    | some base =>
      (p.1 + base * qtyOf it, p.2 + costo_estimado_row base info.categoria t * qtyOf it)

/-- The (sum_base, sum_cost) accumulation of eval_combo. -/
def evalSums (cat : Catalog) (t : CostTable) (items : List LineItem) : ℚ × ℚ :=
  items.foldl (evalStep cat t) (0, 0)

/-- eval_combo (src/chal.py lines 295-311). The globals app_commission,
packaging and other_var are passed explicitly. -/
def eval_combo (cat : Catalog) (t : CostTable) (app_commission packaging other_var : ℚ)
    (items : List LineItem) (precio_combo : ℚ) : ComboMetrics :=
  let s := evalSums cat t items
  let commission_cost := precio_combo * (app_commission / 100)
  let total_cost_combo := s.2 + packaging + other_var + commission_cost
  let margen_abs := precio_combo - total_cost_combo
  let margen_pct := if precio_combo > 0 then margen_abs / precio_combo * 100 else 0
  let desc_vs_base := if s.1 > 0 then (1 - precio_combo / s.1) * 100 else 0
  ⟨s.1, s.2, commission_cost, total_cost_combo, margen_abs, margen_pct, desc_vs_base⟩

/-- Per-item contribution to sum_base as the specification states it: zero
for an item whose product is absent from the catalog or has a null base
price, else unit base price times quantity. -/
def baseContrib (cat : Catalog) (it : LineItem) : ℚ :=
  match catFind cat it.id with
  | none => 0
  | some info =>
    match info.precio_base with
    | none => 0
    | some base => base * qtyOf it

/-- Per-item contribution to sum_cost: zero for skipped items, else
estimated unit cost times quantity. -/
def costContrib (cat : Catalog) (t : CostTable) (it : LineItem) : ℚ :=
  match catFind cat it.id with
  | none => 0
  | some info =>
    match info.precio_base with
    | none => 0
    | some base => costo_estimado_row base info.categoria t * qtyOf it

/-! ### Minimum-price floor (src/chal.py lines 287-293) -/

/-- One iteration of the price_floor_for_items loop: catalog.get(pid, {}).
get("precio_min") and the Python truthiness test if pm pm (a null or zero
minimum contributes nothing). -/
def floorStep (cat : Catalog) (s : ℚ) (it : LineItem) : ℚ :=
  match (catFind cat it.id).bind (fun pr => pr.precio_min) with
  | some pm => if pm ≠ 0 then s + pm * qtyOf it else s
  | none => s

/-- price_floor_for_items (src/chal.py lines 287-293). -/
def price_floor_for_items (cat : Catalog) (items : List LineItem) : ℚ :=
  items.foldl (floorStep cat) 0

/-- Per-item floor contribution as the claim states it: zero when the
product is absent, its minimum price is null, or its minimum price is zero;
otherwise minimum price times quantity (quantity defaulting to 1). -/
def floorContrib (cat : Catalog) (it : LineItem) : ℚ :=
  match (catFind cat it.id).bind (fun pr => pr.precio_min) with
  | some pm => if pm = 0 then 0 else pm * qtyOf it
  | none => 0

/-! ### Pricing strategies and floor enforcement (src/chal.py lines 486-509) -/

/-- Discount-off-list strategy (src/chal.py line 495). -/
def price_discount (sum_base d : ℚ) : ℚ := sum_base * (1 - d / 100)

/-- Target-margin-on-cost strategy (src/chal.py line 498); the 1e-6 guard
is the rational 1/1000000. -/
def price_target_margin (sum_cost tm : ℚ) : ℚ :=
  sum_cost / max (1 / 1000000) (1 - tm / 100)

/-- The modo_precio branch (src/chal.py lines 493-498); modo = true is the
Descuento vs base branch, false the Margen objetivo branch. -/
def strategy_price (modo : Bool) (sum_price sum_cost desc tm : ℚ) : ℚ :=
  if modo then price_discount sum_price desc else price_target_margin sum_cost tm

/-- Floor enforcement (src/chal.py lines 500-503): raise the already
computed price to the floor exactly when enabled and below it. -/
def apply_floor (enforce : Bool) (price fl : ℚ) : ℚ :=
  if enforce = true ∧ price < fl then fl else price

/-! ### Case-insensitive substring matching

The heuristic generator classifies catalog entries with re.search over the
category string with re.IGNORECASE (src/chal.py lines 317-319). All three
patterns are alternations of plain ASCII words (the optional s of bebidas?
makes the literal bebida the matched core), so re.search is exactly an
ASCII-case-insensitive substring test for each word. -/

/-- ASCII lowercase of one character. -/
def lowChar (c : Char) : Char :=
  if 65 ≤ c.toNat ∧ c.toNat ≤ 90 then Char.ofNat (c.toNat + 32) else c

/-- Whether the first list is a leading segment of the second. -/
def beginsWith : List Char → List Char → Bool
  | [], _ => true
  | _ :: _, [] => false
  | a :: as, b :: bs => a == b && beginsWith as bs

/-- Whether pat occurs as a contiguous segment of the second list. -/
def hasSub (pat : List Char) : List Char → Bool
  | [] => beginsWith pat []
  | c :: t => beginsWith pat (c :: t) || hasSub pat t

/-- Case-insensitive substring test: pat is given in lowercase. -/
def lowerHas (pat s : String) : Bool :=
  hasSub pat.data (s.data.map lowChar)

/-- re.search of pizza, hamb, hot dog or pasta (src/chal.py line 317). -/
def princPred (c : String) : Bool :=
  lowerHas "pizza" c || lowerHas "hamb" c || lowerHas "hot dog" c || lowerHas "pasta" c

/-- re.search of bebidas?, coca or agua (src/chal.py line 318). -/
def drinkPred (c : String) : Bool :=
  lowerHas "bebida" c || lowerHas "coca" c || lowerHas "agua" c

/-- re.search of extra, snack, papas or nudos (src/chal.py line 319). -/
def extraPred (c : String) : Bool :=
  lowerHas "extra" c || lowerHas "snack" c || lowerHas "papas" c || lowerHas "nudos" c

/-- The ids of the catalog entries whose category satisfies a predicate,
in catalog order (the list comprehensions of src/chal.py lines 317-319). -/
def poolOf (cat : Catalog) (p : String → Bool) : List String :=
  (cat.filter (fun e => p e.2.categoria)).map (fun e => e.1)

/-- list(catalog.keys()) in insertion order. -/
def catalogIds (cat : Catalog) : List String := cat.map (fun e => e.1)

/-! ### Randomness for the heuristic generator

random.Random() is modelled as an injectable source: a stream of naturals
feeding randint and choice (a draw is reduced modulo the size of the range
or pool, so every stream yields an in-range result and every in-range
result is some stream) and a stream of rationals feeding uniform (clamped
into the unit interval before scaling). -/

structure Rng where
  nats : List Nat
  qs : List ℚ
deriving DecidableEq

/-- Take one natural from the source (0 when exhausted). -/
def nextNat (r : Rng) : Nat × Rng :=
  match r.nats with
  | [] => (0, r)
  | n :: t => (n, ⟨t, r.qs⟩)

/-- Take one rational from the source (0 when exhausted). -/
def nextQ (r : Rng) : ℚ × Rng :=
  match r.qs with
  | [] => (0, r)
  | q :: t => (q, ⟨r.nats, t⟩)

/-- rng.randint(lo, hi): an integer in [lo, hi]. -/
def rngRandint (lo hi : Nat) (r : Rng) : Nat × Rng :=
  match nextNat r with
  | (n, r1) => (if lo ≤ hi then lo + n % (hi - lo + 1) else lo, r1)

/-- rng.choice(l) for a nonempty pool, with a default for the empty pool
the source never selects from. -/
def rngChoice {α : Type} (l : List α) (d : α) (r : Rng) : α × Rng :=
  match nextNat r with
  | (n, r1) => (l.getD (n % l.length) d, r1)

/-- rng.uniform(lo, hi): a value in [lo, hi]. -/
def rngUniform (lo hi : ℚ) (r : Rng) : ℚ × Rng :=
  match nextQ r with
  | (q, r1) => (lo + (hi - lo) * min 1 (max 0 q), r1)

/-! ### Banker s rounding

Python round(x, 2) rounds half to even; round2 is that on rationals. -/

/-- Round a rational to the nearest integer, halves to even. -/
def rhe (q : ℚ) : ℤ :=
  if q - (Rat.floor q : ℚ) < 1 / 2 then Rat.floor q
  else if (1 : ℚ) / 2 < q - (Rat.floor q : ℚ) then Rat.floor q + 1
  else if Rat.floor q % 2 = 0 then Rat.floor q else Rat.floor q + 1

/-- round(x, 2). -/
def round2 (q : ℚ) : ℚ := ((rhe (q * 100) : ℤ) : ℚ) / 100

/-! ### Heuristic combo generator (src/chal.py lines 313-346) -/

/-- A generated combo candidate: its line items, rounded price and the
metrics recomputed at that price. The uuid-suffixed display name carries no
combo content and is not modelled. -/
structure Candidate where
  items : List LineItem
  precio_combo : ℚ
  metrics : ComboMetrics
deriving DecidableEq

/-- The while n_it greater 0 filler loop (src/chal.py lines 325-329): pick
one of the three pools at random; an empty chosen pool breaks out of the
loop, else one random id of the pool is appended with qty 1. -/
def fillItems (bebidas extras ids : List String) :
    Nat → List LineItem → Rng → List LineItem × Rng
  | 0, acc, r => (acc, r)
  | Nat.succ n, acc, r =>
    match rngChoice [bebidas, extras, ids] [] r with
    | (pool, r1) =>
      match pool with
      | [] => (acc, r1)
      | _ :: _ =>
        match rngChoice pool "" r1 with
        | (pid, r2) => fillItems bebidas extras ids n (acc ++ [⟨pid, some 1⟩]) r2

/-- One iteration of the generation loop of heuristic_combos (src/chal.py
lines 321-345): none when the draw is degenerate (nonpositive aggregate
base or cost) and skipped, some candidate otherwise. -/
def gen_one (cat : Catalog) (t : CostTable) (app_commission packaging other_var : ℚ)
    (min_items max_items : Nat) (ensure_min : Bool) (r : Rng) :
    Option Candidate × Rng :=
  let princ := poolOf cat princPred
  let bebidas := poolOf cat drinkPred
  let extras := poolOf cat extraPred
  let ids := catalogIds cat
  match rngRandint min_items max_items r with
  | (nIt0, r1) =>
    let start : List LineItem × Nat × Rng :=
      match princ with
      | [] => ([], nIt0, r1)
      | _ :: _ =>
        match rngChoice princ "" r1 with
        | (pid, r2) => ([⟨pid, some 1⟩], nIt0 - 1, r2)
    match fillItems bebidas extras ids start.2.1 start.1 start.2.2 with
    | (items, r3) =>
      let ev := eval_combo cat t app_commission packaging other_var items 1
      if ev.sum_cost ≤ 0 ∨ ev.sum_base ≤ 0 then (none, r3)
      else
        match rngUniform (1 / 2) (3 / 5) r3 with
        | (u1, r4) =>
          match rngUniform (3 / 20) (3 / 10) r4 with
          | (u2, r5) =>
            let pMargin := ev.sum_cost / (1 - u1)
            let pDisc := ev.sum_base * (1 - u2)
            let price0 := max pMargin pDisc
            let price :=
              if ensure_min then max price0 (price_floor_for_items cat items) else price0
            (some ⟨items, round2 price,
              eval_combo cat t app_commission packaging other_var items price⟩, r5)

/-- heuristic_combos (src/chal.py lines 313-346): num independent draws,
skipped draws emit nothing, output in generation order. -/
def heuristic_combos (cat : Catalog) (t : CostTable)
    (app_commission packaging other_var : ℚ)
    (min_items max_items : Nat) (ensure_min : Bool) :
    Nat → Rng → List Candidate
  | 0, _ => []
  | Nat.succ n, r =>
    match gen_one cat t app_commission packaging other_var min_items max_items ensure_min r with
    | (none, r1) =>
      heuristic_combos cat t app_commission packaging other_var min_items max_items ensure_min n r1
    | (some c, r1) =>
      c :: heuristic_combos cat t app_commission packaging other_var min_items max_items ensure_min n r1

/-! ### Working-combo editor rows and export (src/chal.py lines 423-540) -/

/-- One row of the working-combo table (work_rows, src/chal.py lines
423-431 and 456-464). precio_min stays optional: a null minimum becomes a
NaN cell that the pandas sum skips. -/
structure WorkRow where
  id : String
  categoria : String
  producto : String
  cantidad : ℚ
  precio_base : ℚ
  costo_estimado : ℚ
  precio_min : Option ℚ
  subtotal_precio : ℚ
  subtotal_costo : ℚ
deriving DecidableEq

/-- Building one work row when a generated combo is applied (src/chal.py
lines 424-431): a missing product gives the dict defaults (empty strings,
base 0, minimum 0), a null base price is coerced to 0 by the or 0.0. -/
def mk_work_row (cat : Catalog) (t : CostTable) (pid : String) (qty : ℚ) : WorkRow :=
  match catFind cat pid with
  | some info =>
    let base := info.precio_base.getD 0
    let cost := costo_estimado_row base info.categoria t
    ⟨pid, info.categoria, info.producto, qty, base, cost, info.precio_min,
      qty * base, qty * cost⟩
  | none =>
    ⟨pid, "", "", qty, 0, costo_estimado_row 0 "" t, some 0, 0, 0⟩

/-- sum_price (src/chal.py line 486). -/
def work_sum_price (rows : List WorkRow) : ℚ :=
  (rows.map (fun r => r.subtotal_precio)).sum

/-- sum_cost (src/chal.py line 487). -/
def work_sum_cost (rows : List WorkRow) : ℚ :=
  (rows.map (fun r => r.subtotal_costo)).sum

/-- sum_min (src/chal.py line 488): the quantity-weighted sum of the
minimum-price column; a NaN minimum is skipped by the pandas sum. -/
def work_sum_min (rows : List WorkRow) : ℚ :=
  (rows.map (fun r =>
    match r.precio_min with
    | some pm => pm * r.cantidad
    | none => 0)).sum

/-- The final combo price of the editor (src/chal.py lines 492-503): the
selected strategy price, then floor enforcement. -/
def editor_combo_price (rows : List WorkRow) (modo : Bool) (desc tm : ℚ)
    (enforce : Bool) : ℚ :=
  apply_floor enforce
    (strategy_price modo (work_sum_price rows) (work_sum_cost rows) desc tm)
    (work_sum_min rows)

/-- The strategy parameters block of the export payload (src/chal.py lines
527-533). -/
structure Params where
  comision_app_pct : ℚ
  empaque_mxn : ℚ
  otros_costos_mxn : ℚ
  modo_precio : Bool
  descuento_pct : Option ℚ
  margen_objetivo_pct : Option ℚ
  enforce_min : Bool
deriving DecidableEq

/-- The exported JSON document (payload, src/chal.py lines 520-538). -/
structure Payload where
  combo : String
  base_precios : String
  items : List WorkRow
  suma_precios_base : ℚ
  suma_costos_estimados : ℚ
  suma_precios_minimos : ℚ
  parametros : Params
  precio_combo : ℚ
  costo_total_combo : ℚ
  margen_abs : ℚ
  margen_pct : ℚ
deriving DecidableEq

/-- Building the export payload (src/chal.py lines 486-538): the editor
metrics are computed from the unrounded aggregates and price, the rows are
exported as they stand, and round(x, 2) is applied to the top-level sums
and final figures only. -/
def export_payload (name label : String) (rows : List WorkRow)
    (app_commission packaging other_var : ℚ) (modo : Bool) (desc tm : ℚ)
    (enforce : Bool) : Payload :=
  let sum_price := work_sum_price rows
  let sum_cost := work_sum_cost rows
  let sum_min := work_sum_min rows
  let combo_price := editor_combo_price rows modo desc tm enforce
  let commission_cost := combo_price * (app_commission / 100)
  let total_cost_combo := sum_cost + packaging + other_var + commission_cost
  let margin_abs := combo_price - total_cost_combo
  let margin_pct := if combo_price > 0 then margin_abs / combo_price * 100 else 0
  ⟨name, label, rows, round2 sum_price, round2 sum_cost, round2 sum_min,
    ⟨app_commission, packaging, other_var, modo,
      (if modo then some desc else none), (if modo then none else some tm), enforce⟩,
    round2 combo_price, round2 total_cost_combo, round2 margin_abs, round2 margin_pct⟩

/-! ### Catalog normalizer column resolution (src/chal.py lines 66-77 and
202-233) -/

/-- pick_col (src/chal.py lines 73-77): the first alias present among the
columns; a required field with no alias present raises KeyError, modelled
as Except.error; an optional one falls back to its default. -/
def pick_col (cols names : List String) (required : Bool) (dflt : Option String) :
    Except String (Option String) :=
  match names.find? (fun n => cols.contains n) with
  | some n => Except.ok (some n)
  | none =>
    if required then Except.error "No encontré ninguna de estas columnas" else Except.ok dflt

/-- The columns the CSV upload path requires verbatim (src/chal.py line 212). -/
def required_csv_cols : List String :=
  ["ID", "Categoría", "Producto", "Precio Actual (MXN)"]

/-- The first required column absent from the uploaded columns, if any
(the validation loop of src/chal.py lines 212-215). -/
def missing_required (cols : List String) : Option String :=
  required_csv_cols.find? (fun req => !(cols.contains req))

/-- The CSV upload step at the catalog level (src/chal.py lines 207-217):
a missing required column stops the script with the error message before
the working table is replaced, so the previous catalog columns survive;
otherwise the upload replaces them. -/
def load_csv (old upload : List String) : List String × Option String :=
  match missing_required upload with
  | some req => (old, some ("Falta la columna requerida: " ++ req))
  | none => (upload, none)

/-- The alias lists of the four mandatory logical fields (src/chal.py
lines 226-229): product identifier, category, product name, base price. -/
def mandatory_aliases : List (List String) :=
  [["ID"], ["Categoría", "Categoria"], ["Producto"], ["Precio Actual (MXN)", "Precio Actual"]]

/-! ### Lenient money parsing (src/chal.py lines 66-71) -/

/-- The character class the regex replace of parse_money keeps: digits,
the decimal point and the minus sign. -/
def money_keep (c : Char) : Bool := c.isDigit || c == '.' || c == '-'

/-- str.replace of everything outside the kept class by nothing. -/
def strip_money (s : String) : String := String.mk (s.data.filter money_keep)

/-- The .replace mapping the residues of empty, nan and bare minus cells
to NaN before the numeric coercion. -/
def replace_blank (s : String) : Option String :=
  if s = "" ∨ s = "nan" ∨ s = "-" then none else some s

/-- Whether every character of the list is a decimal digit. -/
def allDigits (l : List Char) : Bool := l.all Char.isDigit

/-- Value of a digit string. -/
def digitsVal (l : List Char) : ℚ :=
  l.foldl (fun a c => a * 10 + ((c.toNat - 48 : ℕ) : ℚ)) 0

/-- The numeral forms pd.to_numeric accepts on the post-strip residue
(whose characters are only digits, dots and minus signs): an optional
leading minus, then digits with at most one dot and at least one digit. -/
def to_numeric_chars (l : List Char) : Option ℚ :=
  match l with
  | '-' :: t => (to_numeric_core t).map (fun q => -q)
  | _ => to_numeric_core l
where
  to_numeric_core (m : List Char) : Option ℚ :=
    match m.findIdx? (fun c => c == '.') with
    | none => if !m.isEmpty && allDigits m then some (digitsVal m) else none
    | some i =>
      if (!(m.take i).isEmpty || !(m.drop (i + 1)).isEmpty)
          && allDigits (m.take i) && allDigits (m.drop (i + 1)) then
        some (digitsVal (m.take i) + digitsVal (m.drop (i + 1)) / (10 : ℚ) ^ (m.drop (i + 1)).length)
      else none

/-- pd.to_numeric with errors coerce on one cell: an unparseable residue
becomes NaN (none), never an exception. -/
def to_numeric (s : String) : Option ℚ := to_numeric_chars s.data

/-- parse_money (src/chal.py lines 66-71) on one cell: strip everything
outside digits, dot and minus, send the degenerate residues to NaN, then
coerce; the result is a number or NaN, never an error. -/
def parse_money_cell (s : String) : Option ℚ :=
  match replace_blank (strip_money s) with
  | none => none
  | some t => to_numeric t

/-! ### Concrete instances used by counterexamples and witnesses -/

/-- Two products of the integrated menu (src/chal.py lines 99 and 179)
under the Precio Actual price base: the personal cheese pizza and the hot
drink Café Americano. -/
def demoCatalog : Catalog :=
  [("P001", ⟨"Pizzas Personales", "Queso", some 130, some 139⟩),
   ("B001", ⟨"Bebidas Calientes", "Café Americano", some 33, some 39⟩)]

/-- The default food-cost fractions of the two demo categories (src/chal.py
lines 243-246). -/
def demoCostTable : CostTable :=
  [("Pizzas Personales", 32 / 100), ("Bebidas Calientes", 25 / 100)]

/-- A deterministic random source: first draws all zero. -/
def demoRng : Rng := ⟨[0, 0, 0, 0], [0, 0]⟩

/-- A one-product catalog as a CSV upload can produce it: a base price of
10.99 whose estimated cost has four decimal places. -/
def demoCsvCatalog : Catalog :=
  [("X1", ⟨"Sándwiches", "Sándwich Pavo", some (1099 / 100), none⟩)]

/-- A work row for the floor-enforcement witness: strategy price 50,
minimum-price floor 100. -/
def demoRow : WorkRow :=
  ⟨"A1", "Pastas", "Pasta", 1, 50, 20, some 100, 50, 20⟩

/-! ## Helper lemmas -/

/-- One evaluator loop step adds exactly the per-item contributions (zero
for a skipped item). -/
lemma evalStep_eq (cat : Catalog) (t : CostTable) (p : ℚ × ℚ) (it : LineItem) :
    evalStep cat t p it = (p.1 + baseContrib cat it, p.2 + costContrib cat t it) := by
  unfold evalStep baseContrib costContrib
  cases hf : catFind cat it.id with
  | none => simp
  | some info =>
    cases hb : info.precio_base with
    | none => simp [hb]
    | some base => simp [hb]

/-- The evaluator accumulation loop from any start values. -/
lemma foldl_evalStep (cat : Catalog) (t : CostTable) (l : List LineItem) (a b : ℚ) :
    l.foldl (evalStep cat t) (a, b) =
      (a + (l.map (baseContrib cat)).sum, b + (l.map (costContrib cat t)).sum) := by
  induction l generalizing a b with
  | nil => simp
  | cons x xs ih =>
    rw [List.foldl_cons, evalStep_eq, ih]
    simp [add_assoc]

/-- The two accumulated sums of eval_combo are the itemwise sums. -/
lemma evalSums_eq (cat : Catalog) (t : CostTable) (items : List LineItem) :
    evalSums cat t items =
      ((items.map (baseContrib cat)).sum, (items.map (costContrib cat t)).sum) := by
  unfold evalSums
  rw [foldl_evalStep]
  simp

/-- One floor loop step adds exactly the per-item floor contribution. -/
lemma floorStep_eq (cat : Catalog) (s : ℚ) (it : LineItem) :
    floorStep cat s it = s + floorContrib cat it := by
  unfold floorStep floorContrib
  cases hf : (catFind cat it.id).bind (fun pr => pr.precio_min) with
  | none => simp
  | some pm =>
    by_cases h0 : pm = 0
    · simp [h0]
    · simp [h0]

/-- The floor accumulation loop from any start value. -/
lemma foldl_floorStep (cat : Catalog) (l : List LineItem) (a : ℚ) :
    l.foldl (floorStep cat) a = a + (l.map (floorContrib cat)).sum := by
  induction l generalizing a with
  | nil => simp
  | cons x xs ih =>
    rw [List.foldl_cons, floorStep_eq, ih]
    simp [add_assoc]

/-- find? finds something satisfying the predicate as soon as one member
satisfies it, and what it finds is a member satisfying it. -/
lemma find?_some_of_mem {α : Type} {p : α → Bool} {l : List α} {x : α}
    (hx : x ∈ l) (hpx : p x = true) :
    ∃ r, l.find? p = some r ∧ p r = true ∧ r ∈ l := by
  induction l with
  | nil => cases hx
  | cons a as ih =>
    by_cases ha : p a = true
    · exact ⟨a, by simp [List.find?_cons, ha], ha, List.mem_cons_self a as⟩
    · have hxas : x ∈ as := by
        rcases List.mem_cons.mp hx with h | h
        · exact absurd (h ▸ hpx) ha
        · exact h
      obtain ⟨r, hfind, hpr, hmem⟩ := ih hxas
      refine ⟨r, ?_, hpr, List.mem_cons_of_mem a hmem⟩
      rw [List.find?_cons, Bool.of_not_eq_true ha]
      exact hfind

/-! ## Claims -/

/-- Claim C1: for every list of line items and every trial price,
eval_combo skips items whose product id is absent from the catalog or
whose base price is null (they contribute zero to both sums, and the
function is total, so no error), and returns sum_base and sum_cost as the
quantity-weighted itemwise sums, commission_cost as trial price times
commission over 100, and total_cost as sum_cost + packaging +
other_variable + commission_cost, exactly. -/
theorem eval_combo_formulas (cat : Catalog) (t : CostTable)
    (comm pack ov : ℚ) (items : List LineItem) (price : ℚ) :
    (eval_combo cat t comm pack ov items price).sum_base =
        (items.map (baseContrib cat)).sum ∧
    (eval_combo cat t comm pack ov items price).sum_cost =
        (items.map (costContrib cat t)).sum ∧
    (eval_combo cat t comm pack ov items price).commission_cost = price * comm / 100 ∧
    (eval_combo cat t comm pack ov items price).total_cost_combo =
        (eval_combo cat t comm pack ov items price).sum_cost + pack + ov +
          (eval_combo cat t comm pack ov items price).commission_cost := by
  refine ⟨?_, ?_, ?_, ?_⟩
  · simp [eval_combo, evalSums_eq]
  · simp [eval_combo, evalSums_eq]
  · simp [eval_combo]
    ring
  · simp [eval_combo]

/-- Claim C4: eval_combo at trial price 0 returns margen_pct 0, and when
sum_base is 0 it returns desc_vs_base 0; both are defined results of a
total function, not error paths. -/
theorem eval_combo_zero_guards (cat : Catalog) (t : CostTable)
    (comm pack ov : ℚ) (items : List LineItem) (price : ℚ) :
    (eval_combo cat t comm pack ov items 0).margen_pct = 0 ∧
    ((eval_combo cat t comm pack ov items price).sum_base = 0 →
      (eval_combo cat t comm pack ov items price).desc_vs_base = 0) := by
  constructor
  · simp [eval_combo]
  · intro h
    simp only [eval_combo] at h ⊢
    rw [h]
    simp

/-- Witness for C4 at concrete inputs: the empty combo priced 0 has zero
margin percentage, and at price 5 its zero base sum gives zero discount. -/
theorem eval_combo_zero_guards_witness :
    (eval_combo [] [] 0 0 0 [] 0).margen_pct = 0 ∧
    (eval_combo [] [] 0 0 0 [] 5).desc_vs_base = 0 :=
  ⟨(eval_combo_zero_guards [] [] 0 0 0 [] 5).1,
   (eval_combo_zero_guards [] [] 0 0 0 [] 5).2 (by norm_num [eval_combo, evalSums, evalStep])⟩

/-- Claim C10: price_floor_for_items equals the sum over items of minimum
price times quantity, where an item whose product is absent, whose minimum
price is null, or whose minimum price equals zero contributes exactly
zero, and a missing quantity counts as 1; the function is total. -/
theorem price_floor_for_items_spec (cat : Catalog) (items : List LineItem) :
    price_floor_for_items cat items = (items.map (floorContrib cat)).sum := by
  unfold price_floor_for_items
  rw [foldl_floorStep]
  simp

/-- Claim C5: the target-margin-on-cost strategy returns
sum_cost / max(1e-6, 1 - target/100); with target 0 it returns sum_cost. -/
theorem price_target_margin_spec (sc tm : ℚ) (hsc : 0 ≤ sc) :
    price_target_margin sc tm = sc / max (1 / 1000000) (1 - tm / 100) ∧
    price_target_margin sc 0 = sc := by
  refine ⟨rfl, ?_⟩
  unfold price_target_margin
  rw [show (1 : ℚ) - 0 / 100 = 1 by norm_num, max_eq_right (by norm_num : (1:ℚ)/1000000 ≤ 1)]
  exact div_one sc

/-- Witness for C5 at sum_cost 50: target margin 0 prices at exactly 50. -/
theorem price_target_margin_witness : price_target_margin 50 0 = 50 :=
  (price_target_margin_spec 50 0 (by norm_num)).2

/-- Claim C6: the discount-off-list strategy returns
sum_base * (1 - discount/100) for discount in [0, 60]; with discount 0 it
returns sum_base exactly (rationals are exact, hence within any tolerance). -/
theorem price_discount_spec (sb d : ℚ) (hsb : 0 ≤ sb) (h0 : 0 ≤ d) (h60 : d ≤ 60) :
    price_discount sb d = sb * (1 - d / 100) ∧ price_discount sb 0 = sb := by
  refine ⟨rfl, ?_⟩
  unfold price_discount
  norm_num

/-- Witness for C6 at sum_base 185, discount 20: the formula value, and
discount 0 is the identity. -/
theorem price_discount_witness :
    price_discount 185 20 = 185 * (1 - 20 / 100) ∧ price_discount 185 0 = 185 :=
  ⟨(price_discount_spec 185 20 (by norm_num) (by norm_num) (by norm_num)).1,
   (price_discount_spec 185 0 (by norm_num) (by norm_num) (by norm_num)).2⟩

/-- Claim C3: the editor price is floor enforcement applied to the already
computed strategy price (never the other way around); with enforcement on
and the strategy price strictly below the quantity-weighted sum of minimum
prices the result is that sum exactly, and with enforcement off or the
strategy price at least the sum the strategy price is unchanged. -/
theorem floor_after_strategy (rows : List WorkRow) (modo : Bool) (desc tm : ℚ)
    (enforce : Bool) :
    editor_combo_price rows modo desc tm enforce =
      apply_floor enforce
        (strategy_price modo (work_sum_price rows) (work_sum_cost rows) desc tm)
        (work_sum_min rows) ∧
    (enforce = true →
      strategy_price modo (work_sum_price rows) (work_sum_cost rows) desc tm <
          work_sum_min rows →
      editor_combo_price rows modo desc tm enforce = work_sum_min rows) ∧
    (enforce = false →
      editor_combo_price rows modo desc tm enforce =
        strategy_price modo (work_sum_price rows) (work_sum_cost rows) desc tm) ∧
    (work_sum_min rows ≤
        strategy_price modo (work_sum_price rows) (work_sum_cost rows) desc tm →
      editor_combo_price rows modo desc tm enforce =
        strategy_price modo (work_sum_price rows) (work_sum_cost rows) desc tm) := by
  refine ⟨rfl, ?_, ?_, ?_⟩
  · intro he hlt
    unfold editor_combo_price apply_floor
    rw [if_pos ⟨he, hlt⟩]
  · intro he
    unfold editor_combo_price apply_floor
    rw [if_neg]
    rintro ⟨h1, -⟩
    rw [he] at h1
    cases h1
  · intro hle
    unfold editor_combo_price apply_floor
    rw [if_neg]
    rintro ⟨-, h2⟩
    exact absurd h2 (not_lt.mpr hle)

/-- Witness for C3 on a concrete row with strategy price 50 and floor 100:
enforcement on yields 100, enforcement off leaves 50. -/
theorem floor_after_strategy_witness :
    editor_combo_price [demoRow] true 0 0 true = 100 ∧
    editor_combo_price [demoRow] true 0 0 false = 50 := by
  constructor
  · have h := (floor_after_strategy [demoRow] true 0 0 true).2.1 rfl
      (by norm_num [strategy_price, price_discount, work_sum_price, work_sum_min, demoRow])
    rw [h]
    norm_num [work_sum_min, demoRow]
  · have h := (floor_after_strategy [demoRow] true 0 0 false).2.2.1 rfl
    rw [h]
    norm_num [strategy_price, price_discount, work_sum_price, demoRow]

/-- Counterexample to claim C2: with the catalog holding the personal
cheese pizza P001 and the hot drink Café Americano B001 (category Bebidas
Calientes), one run of the heuristic generator emits a candidate whose
principal item is of category Pizzas Personales and whose second line item
is the hot drink: the generator applies no hot-drink exclusion, because
the drink pool pattern bebidas?, coca, agua also matches hot-drink
categories. -/
theorem heuristic_hot_drink_counterexample :
    (heuristic_combos demoCatalog demoCostTable 0 0 0 2 2 true 1 demoRng).map
        (fun c => c.items) = [[⟨"P001", some 1⟩, ⟨"B001", some 1⟩]] ∧
    (catFind demoCatalog "P001").map (fun p => p.categoria) = some "Pizzas Personales" ∧
    (catFind demoCatalog "B001").map (fun p => p.categoria) = some "Bebidas Calientes" ∧
    princPred "Pizzas Personales" = true ∧
    drinkPred "Bebidas Calientes" = true := by
  refine ⟨?_, by decide, by decide, by decide, by decide⟩
  have h1 : poolOf demoCatalog princPred = ["P001"] := by decide
  have h2 : poolOf demoCatalog drinkPred = ["B001"] := by decide
  have h3 : poolOf demoCatalog extraPred = [] := by decide
  have h4 : catalogIds demoCatalog = ["P001", "B001"] := by decide
  have hfill : fillItems ["B001"] [] ["P001", "B001"] 1 [⟨"P001", some 1⟩] ⟨[0, 0], [0, 0]⟩ =
      ([⟨"P001", some 1⟩, ⟨"B001", some 1⟩], ⟨[], [0, 0]⟩) := by decide
  have b1 : ("P001" == "P001") = true := by decide
  have b2 : ("P001" == "B001") = false := by decide
  have b3 : ("B001" == "B001") = true := by decide
  have b4 : ("Pizzas Personales" == "Pizzas Personales") = true := by decide
  have b5 : ("Pizzas Personales" == "Bebidas Calientes") = false := by decide
  have b6 : ("Bebidas Calientes" == "Bebidas Calientes") = true := by decide
  have hcost : (eval_combo demoCatalog demoCostTable 0 0 0
      [⟨"P001", some 1⟩, ⟨"B001", some 1⟩] 1).sum_cost = 4985 / 100 := by
    norm_num [eval_combo, evalSums, evalStep, List.foldl, catFind, List.find?,
      demoCatalog, costo_estimado_row, tableGet, demoCostTable, qtyOf,
      b1, b2, b3, b4, b5, b6]
  have hbase : (eval_combo demoCatalog demoCostTable 0 0 0
      [⟨"P001", some 1⟩, ⟨"B001", some 1⟩] 1).sum_base = 163 := by
    norm_num [eval_combo, evalSums, evalStep, List.foldl, catFind, List.find?,
      demoCatalog, costo_estimado_row, tableGet, demoCostTable, qtyOf,
      b1, b2, b3, b4, b5, b6]
  norm_num [heuristic_combos, gen_one, h1, h2, h3, h4, hfill, hcost, hbase,
    rngRandint, rngChoice, rngUniform, nextNat, nextQ, demoRng, List.getD]

/-- Claim C2 as amended: the heuristic generator enforces no hot-drink
exclusion. Its drink pool is every catalog entry whose category matches
the pattern bebidas?, coca or agua, regardless of hot or cold, so any
product of a hot-drink category such as Bebidas Calientes is eligible to
be attached to a pizza, burger, hot-dog or pasta principal, and a
generation run can emit such a pairing. -/
theorem heuristic_drink_pool_no_exclusion (cat : Catalog) (pid : String) (p : Product)
    (hmem : (pid, p) ∈ cat) (hdrink : drinkPred p.categoria = true) :
    pid ∈ poolOf cat drinkPred ∧ drinkPred "Bebidas Calientes" = true := by
  constructor
  · unfold poolOf
    exact List.mem_map.mpr ⟨(pid, p), List.mem_filter.mpr ⟨hmem, hdrink⟩, rfl⟩
  · decide

/-- Witness for the amended C2: the hot drink B001 of category Bebidas
Calientes is in the heuristic drink pool of the demo catalog. -/
theorem heuristic_drink_pool_no_exclusion_witness :
    "B001" ∈ poolOf demoCatalog drinkPred ∧ drinkPred "Bebidas Calientes" = true :=
  heuristic_drink_pool_no_exclusion demoCatalog "B001"
    ⟨"Bebidas Calientes", "Café Americano", some 33, some 39⟩ (by decide) (by decide)

/-- Claim C7: when some mandatory catalog field (product identifier,
category, product name, base price) matches none of its aliases among the
uploaded columns, alias resolution raises instead of defaulting, the CSV
validation loop reports a missing required column by name, and the load
halts with the previous catalog columns untouched: no partial catalog. -/
theorem catalog_missing_column_halts (cols old al : List String)
    (hal : al ∈ mandatory_aliases) (hmiss : ∀ a ∈ al, cols.contains a = false) :
    pick_col cols al true none = Except.error "No encontré ninguna de estas columnas" ∧
    ∃ req, missing_required cols = some req ∧ req ∈ required_csv_cols ∧
      cols.contains req = false ∧
      load_csv old cols = (old, some ("Falta la columna requerida: " ++ req)) := by
  constructor
  · have hnone : al.find? (fun n => cols.contains n) = none := by
      rw [List.find?_eq_none]
      intro a ha hc
      rw [hmiss a ha] at hc
      cases hc
    unfold pick_col
    rw [hnone]
    rfl
  · have hx : ∃ x, x ∈ required_csv_cols ∧ cols.contains x = false := by
      simp only [mandatory_aliases, List.mem_cons, List.not_mem_nil, or_false] at hal
      rcases hal with h | h | h | h
      · exact ⟨"ID", by simp [required_csv_cols], hmiss "ID" (by rw [h]; simp)⟩
      · exact ⟨"Categoría", by simp [required_csv_cols], hmiss "Categoría" (by rw [h]; simp)⟩
      · exact ⟨"Producto", by simp [required_csv_cols], hmiss "Producto" (by rw [h]; simp)⟩
      · exact ⟨"Precio Actual (MXN)", by simp [required_csv_cols],
          hmiss "Precio Actual (MXN)" (by rw [h]; simp)⟩
    obtain ⟨x, hxmem, hxc⟩ := hx
    obtain ⟨req, hfind, hpr, hmem⟩ :=
      find?_some_of_mem (p := fun r => !(cols.contains r)) hxmem (by simpa using hxc)
    have hfind2 : missing_required cols = some req := hfind
    refine ⟨req, hfind2, hmem, by simpa using hpr, ?_⟩
    unfold load_csv
    rw [hfind2]

/-- Witness for C7: an upload lacking both aliases of the category field
is rejected naming a missing required column, and the old columns stay. -/
theorem catalog_missing_column_halts_witness :
    pick_col ["ID", "Producto", "Precio Actual (MXN)"] ["Categoría", "Categoria"] true none =
      Except.error "No encontré ninguna de estas columnas" ∧
    ∃ req, missing_required ["ID", "Producto", "Precio Actual (MXN)"] = some req ∧
      req ∈ required_csv_cols ∧
      List.contains ["ID", "Producto", "Precio Actual (MXN)"] req = false ∧
      load_csv ["ID", "Categoría", "Producto", "Precio Actual (MXN)"]
          ["ID", "Producto", "Precio Actual (MXN)"] =
        (["ID", "Categoría", "Producto", "Precio Actual (MXN)"],
          some ("Falta la columna requerida: " ++ req)) :=
  catalog_missing_column_halts ["ID", "Producto", "Precio Actual (MXN)"]
    ["ID", "Categoría", "Producto", "Precio Actual (MXN)"] ["Categoría", "Categoria"]
    (by decide) (by decide)

/-- The intermediate replace of empty, nan and dash residues to NaN agrees
with the numeric coercion, which already sends those three residues to
NaN. -/
lemma replace_blank_to_numeric (u : String) :
    (match replace_blank u with
      | none => none
      | some t => to_numeric t) = to_numeric u := by
  unfold replace_blank
  by_cases h : u = "" ∨ u = "nan" ∨ u = "-"
  · rw [if_pos h]
    rcases h with h | h | h <;> subst h <;> decide
  · rw [if_neg h]

/-- Claim C8: parse_money keeps exactly the digits, dot and minus-sign
characters of a cell, so its result only depends on that residue (any
other characters are stripped), and whatever residue the numeric coercion
cannot parse becomes null rather than an error; the function is total. -/
theorem parse_money_lenient (s u : String) :
    parse_money_cell s = to_numeric (strip_money s) ∧
    (strip_money s = strip_money u → parse_money_cell s = parse_money_cell u) ∧
    (to_numeric (strip_money s) = none → parse_money_cell s = none) := by
  have base : ∀ w : String, parse_money_cell w = to_numeric (strip_money w) := by
    intro w
    unfold parse_money_cell
    exact replace_blank_to_numeric (strip_money w)
  refine ⟨base s, ?_, ?_⟩
  · intro h
    rw [base s, base u, h]
  · intro h
    rw [base s, h]

/-- Witness for C8: the currency decoration of 1,234.50 MXN is stripped so
the cell parses like its bare residue, and a residue-free cell is coerced
to null. -/
theorem parse_money_lenient_witness :
    parse_money_cell "1,234.50 MXN" = parse_money_cell "1234.50" ∧
    parse_money_cell "n/a" = none :=
  ⟨(parse_money_lenient "1,234.50 MXN" "1234.50").2.1 (by decide),
   (parse_money_lenient "n/a" "n/a").2.2 (by decide)⟩

/-- Counterexample to claim C9: exporting a working combo built from a CSV
catalog with base price 10.99 (cost fraction 0.33) writes the per-item
estimated cost 3.6267 into the items of the payload unrounded: it is not
equal to its own two-decimal rounding, so not every monetary value of the
export is rounded to 2 decimal places. -/
theorem export_item_unrounded_counterexample :
    (export_payload "Combo" "Precio Actual" [mk_work_row demoCsvCatalog [] "X1" 1]
        0 0 0 true 0 0 false).items.map (fun r => r.costo_estimado) = [36267 / 10000] ∧
    round2 ((36267 : ℚ) / 10000) ≠ (36267 : ℚ) / 10000 := by
  constructor
  · have bx : ("X1" == "X1") = true := by decide
    norm_num [export_payload, mk_work_row, catFind, List.find?, demoCsvCatalog,
      costo_estimado_row, tableGet, bx]
  · norm_num [round2, rhe, Rat.floor]

/-- Claim C9 as amended: the export payload contains the combo name, the
chosen price-base label, the line items, the aggregate sums, the strategy
parameters used and the final price, cost and margin figures; round(x, 2)
is applied at export time only and only to the top-level sums, price, cost
and margin figures, which are rounded from the unrounded pipeline values,
while the per-item price, cost and subtotal values inside items are
exported exactly as they stand in the working table, unrounded. -/
theorem export_payload_shape (name label : String) (rows : List WorkRow)
    (comm pack ov : ℚ) (modo : Bool) (desc tm : ℚ) (enforce : Bool) :
    (export_payload name label rows comm pack ov modo desc tm enforce).combo = name ∧
    (export_payload name label rows comm pack ov modo desc tm enforce).base_precios = label ∧
    (export_payload name label rows comm pack ov modo desc tm enforce).items = rows ∧
    (export_payload name label rows comm pack ov modo desc tm enforce).suma_precios_base =
      round2 (work_sum_price rows) ∧
    (export_payload name label rows comm pack ov modo desc tm enforce).suma_costos_estimados =
      round2 (work_sum_cost rows) ∧
    (export_payload name label rows comm pack ov modo desc tm enforce).suma_precios_minimos =
      round2 (work_sum_min rows) ∧
    (export_payload name label rows comm pack ov modo desc tm enforce).parametros =
      ⟨comm, pack, ov, modo, (if modo then some desc else none),
        (if modo then none else some tm), enforce⟩ ∧
    (export_payload name label rows comm pack ov modo desc tm enforce).precio_combo =
      round2 (editor_combo_price rows modo desc tm enforce) ∧
    (export_payload name label rows comm pack ov modo desc tm enforce).costo_total_combo =
      round2 (work_sum_cost rows + pack + ov +
        editor_combo_price rows modo desc tm enforce * (comm / 100)) ∧
    (export_payload name label rows comm pack ov modo desc tm enforce).margen_abs =
      round2 (editor_combo_price rows modo desc tm enforce -
        (work_sum_cost rows + pack + ov +
          editor_combo_price rows modo desc tm enforce * (comm / 100))) ∧
    (export_payload name label rows comm pack ov modo desc tm enforce).margen_pct =
      round2 (if editor_combo_price rows modo desc tm enforce > 0 then
        (editor_combo_price rows modo desc tm enforce -
          (work_sum_cost rows + pack + ov +
            editor_combo_price rows modo desc tm enforce * (comm / 100))) /
          editor_combo_price rows modo desc tm enforce * 100
        else 0) :=
  ⟨rfl, rfl, rfl, rfl, rfl, rfl, rfl, rfl, rfl, rfl, rfl⟩

end ElChal
